import Mathlib

/-!
Verification development for the smolnet-portal proxy core.

This file gives a shallow embedding, in Lean, of the parts of the code base
that the specification's claims are about:

* `geminiportal/protocols/base.py` — the bounded body reader (`get_body`),
  the streaming reader (`stream_body`), MIME-meta parsing (`parse_meta`),
  and the proxy response builder dispatch (`render_from_handler`).
* `geminiportal/protocols/scroll.py` — the Scroll response dispatch
  (`build_proxy_response`) and the date parsing of the extended
  document-metadata header lines (`parse_date`).
* `geminiportal/handlers/scroll.py` — the Scroll document transducer
  (`iter_content`, `flush`, `get_anchor`, `parse_inline_markup`).

Python strings are modelled as `List Char` internally (wrapped in `String` at
the interfaces); bytes as `List Nat`; functions that can raise return
`Option`/`Except`.  All definitions are executable so that claims can be
checked on concrete inputs by `decide`/`rfl`.
-/

/-! ## Python string primitives (ASCII fragment used by the code) -/

/-- Whitespace characters of Python `str.strip` (ASCII fragment). -/
def pyIsSpace (c : Char) : Bool :=
  c = ' ' || c = '\t' || c = '\n' || c = '\r' || c = Char.ofNat 11 || c = Char.ofNat 12

/-- Python `str.lstrip()`. -/
def pyLstrip (cs : List Char) : List Char := cs.dropWhile pyIsSpace

/-- Python `str.rstrip()`. -/
def pyRstrip (cs : List Char) : List Char := (cs.reverse.dropWhile pyIsSpace).reverse

/-- Python `str.strip()`. -/
def pyStrip (cs : List Char) : List Char := pyLstrip (pyRstrip cs)

/-- Boolean prefix test, Python `str.startswith`. -/
def startsWithL : List Char → List Char → Bool
  | [], _ => true
  | _ :: _, [] => false
  | p :: ps, c :: cs => p == c && startsWithL ps cs

/-- Worker for Python `str.splitlines` (handles `\n`, `\r\n` and `\r`). -/
def splitLinesAux : List Char → List Char → List (List Char)
  | [], acc => if acc = [] then [] else [acc.reverse]
  | '\r' :: '\n' :: rest, acc => acc.reverse :: splitLinesAux rest []
  | '\n' :: rest, acc => acc.reverse :: splitLinesAux rest []
  | '\r' :: rest, acc => acc.reverse :: splitLinesAux rest []
  | c :: rest, acc => splitLinesAux rest (c :: acc)

/-- Python `str.splitlines()`: no trailing empty line for a trailing newline. -/
def pySplitlines (cs : List Char) : List (List Char) := splitLinesAux cs []

/-! ## Response body reader (`BaseResponse.get_body` / `stream_body`) -/

/-- Chunk size for streaming files (`CHUNK_SIZE = 2**14` in `base.py`). -/
def CHUNK_SIZE : Nat := 2 ^ 14

/-- Maximum non-streaming response size (`MAX_BODY_SIZE = 2**20` in `base.py`). -/
def MAX_BODY_SIZE : Nat := 2 ^ 20

/-- Result of `asyncio.StreamReader.readexactly`. -/
inductive ReadResult where
  /-- Exactly `n` bytes were available and are returned. -/
  | ok (data : List Nat)
  /-- EOF was reached first: `IncompleteReadError` carrying the bytes read. -/
  | eofPart (data : List Nat)
deriving DecidableEq, Repr

/-- Model of `reader.readexactly(n)`.  The connection state is abstracted as
the byte sequence `bs` the peer will send before EOF, plus `peerCloses`
telling whether the peer closes the connection after sending it; when fewer
than `n` bytes are ever sent and the peer does not close, the call never
completes (`none`). -/
def readexactly (bs : List Nat) (peerCloses : Bool) (n : Nat) : Option ReadResult :=
  if n ≤ bs.length then some (.ok (bs.take n))
  else if peerCloses then some (.eofPart bs) else none

/-- Outcome of `BaseResponse.get_body`. -/
inductive GetBodyResult where
  /-- The body was returned; the Bool records whether `close()` was called. -/
  | body (data : List Nat) (connClosed : Bool)
  /-- `ProxyResponseSizeError` was raised carrying the bytes read so far;
  the Bool records whether `close()` was called. -/
  | tooLarge (bytesRead : List Nat) (connClosed : Bool)
  /-- The read never completes (peer neither sends enough nor closes). -/
  | blocked
deriving DecidableEq, Repr

/-- Model of `BaseResponse.get_body` (`base.py` lines 209–227): `readexactly
(MAX_BODY_SIZE)`; on `IncompleteReadError` close the connection and return the
partial data (it is the whole body); on success raise `ProxyResponseSizeError`
with the data read and leave the connection open. -/
def get_body (bs : List Nat) (peerCloses : Bool) : GetBodyResult :=
  match readexactly bs peerCloses MAX_BODY_SIZE with
  | some (.ok data) => .tooLarge data false
  | some (.eofPart data) => .body data true
  | none => .blocked

/-- Successive chunks returned by `reader.read(CHUNK_SIZE)` until EOF. -/
def chunkBody (bs : List Nat) : List (List Nat) :=
  if h : bs = [] then [] else bs.take CHUNK_SIZE :: chunkBody (bs.drop CHUNK_SIZE)
termination_by bs.length
decreasing_by
  have hc : 0 < CHUNK_SIZE := by decide
  have hb : 0 < bs.length := List.length_pos.mpr h
  simp only [List.length_drop]
  omega

/-- How the consumer of `stream_body` stops iterating: it drains the iterator,
abandons it after `k` chunks, or a read error occurs after `k` chunks. -/
inductive StreamExit where
  | exhausted
  | abandoned (k : Nat)
  | readError (k : Nat)
deriving DecidableEq, Repr

/-- Model of `BaseResponse.stream_body` (`base.py` lines 229–237): the chunks
actually yielded for a given exit mode, paired with whether `close()` ran.
The `try`/`finally` in the generator runs `close()` whichever way iteration
ends, which is why the flag is `true` in every branch. -/
def stream_body (bs : List Nat) : StreamExit → List (List Nat) × Bool
  | .exhausted => (chunkBody bs, true)
  | .abandoned k => ((chunkBody bs).take k, true)
  | .readError k => ((chunkBody bs).take k, true)

/-! ## MIME meta parsing (`BaseResponse.parse_meta`) -/

/-- Python `meta.split(";", maxsplit=1)`: text before the first `;` and the
text after it (empty when there is no `;`, which the caller treats the same
as an absent second part). -/
def splitSemi : List Char → List Char × List Char
  | [] => ([], [])
  | ';' :: rest => ([], rest)
  | c :: rest => let (a, b) := splitSemi rest; (c :: a, b)

/-- Python `extra.split(";")` (always at least one segment). -/
def splitAllSemi : List Char → List (List Char)
  | [] => [[]]
  | ';' :: rest => [] :: splitAllSemi rest
  | c :: rest =>
    match splitAllSemi rest with
    | s :: ss => (c :: s) :: ss
    | [] => [[c]]

/-- Python `param.split("=", maxsplit=1)`: `none` when there is no `=`. -/
def splitEq : List Char → Option (List Char × List Char)
  | [] => none
  | c :: rest =>
    if c = '=' then some ([], rest)
    else
      match splitEq rest with
      | some (k, v) => some (c :: k, v)
      | none => none

/-- Python `dict` assignment `d[k] = v`: update in place or append. -/
def dictSet (d : List (String × String)) (k v : String) : List (String × String) :=
  match d with
  | [] => [(k, v)]
  | (k', v') :: rest => if k' = k then (k, v) :: rest else (k', v') :: dictSet rest k v

/-- Python `d.get(k)`. -/
def dictGet (d : List (String × String)) (k : String) : Option String :=
  match d with
  | [] => none
  | (k', v) :: rest => if k' = k then some v else dictGet rest k

/-- One iteration of the parameter loop in `parse_meta`: strip the segment,
split on the first `=`, drop the segment if there is none, otherwise store
the value under the lower-cased key. -/
def paramStep (d : List (String × String)) (seg : List Char) : List (String × String) :=
  match splitEq (pyStrip seg) with
  | some (k, v) => dictSet d ⟨k.map Char.toLower⟩ ⟨v⟩
  | none => d

/-- Model of `BaseResponse.parse_meta` (`base.py` lines 174–194). -/
def parse_meta (meta : String) : String × List (String × String) :=
  let mt := (splitSemi meta.toList).1
  let extra := (splitSemi meta.toList).2
  (⟨pyStrip mt⟩, (splitAllSemi extra).foldl paramStep [])

/-! ## Proxy response builder (`base.py` / `scroll.py`) -/

/-- Python-truthy test for a single-character prefix, `status.startswith(c)`. -/
def startsWithCh (s : String) (c : Char) : Bool :=
  match s.toList with
  | [] => false
  | a :: _ => a = c

/-- Caller options consulted by the Scroll builder (fields of `ProxyOptions`
in `geminiportal/utils.py`, which is outside `src/`; only the flags the
builder reads are modelled, as plain booleans / strings). -/
structure ProxyOptions where
  raw : Bool
  raw_crt : Bool
  crt : Bool
  charset : String
deriving DecidableEq, Repr

/-- Behaviour of the externally resolved content-type handler
(`get_handler_class(...)` and `handler.render()` live in
`geminiportal/handlers/`, outside `src/`): it either renders a page or
raises `ProxyResponseSizeError` carrying the bytes read so far. -/
inductive HandlerOutcome where
  | rendered (page : String)
  | tooLarge (bytesRead : List Nat)
deriving DecidableEq, Repr

/-- The state of a `ScrollResponse` as far as the builder dispatch reads it
(`scroll.py` lines 106–183). -/
structure ScrollResponseModel where
  options : ProxyOptions
  status : String
  meta : String
  host : String
  body : List Nat
  tls_cert : List Nat
  handlerOutcome : HandlerOutcome
deriving DecidableEq, Repr

/-- Mimetype computed in `ScrollResponse.__init__`: `parse_meta` on success
status, empty otherwise. -/
def ScrollResponseModel.mimetype (r : ScrollResponseModel) : String :=
  if startsWithCh r.status '2' then (parse_meta r.meta).1 else ""

/-- The HTTP response produced by the builder.  Template rendering and URL
resolution are external collaborators, so constructors carry the data handed
to them: `redirectTo` carries the raw `meta` whose resolution against the
request URL happens in `geminiportal/urls.py` (outside `src/`), and
`proxyErrorPage` carries the status and meta passed to the template. -/
inductive ProxyResult where
  | certAttachment (cert : List Nat) (filename : String)
  | tlsContextPage
  | inputPrompt (secret : Bool) (prompt : String)
  | handlerPage (page : String)
  /-- Modelled from the spec: `StreamHandler` (`geminiportal/handlers/base.py`,
  not under `src/`) streams the remaining body bytes verbatim, prefixed with
  `seeded` (the bytes already read, for `from_partial_response`), tagged with
  the given content type. -/
  | rawStream (mimetype : String) (seeded : List Nat)
  | redirectTo (meta : String) (code : Nat)
  | proxyErrorPage (status : String) (message : String)
  | certRequiredPage
  | gatewayErrorPage
  /-- `ProxyResponseSizeError` escaped from the `crt` branch's `get_body()`. -/
  | uncaughtSizeError (bytesRead : List Nat)
deriving DecidableEq, Repr

/-- Discriminator used to state that an output is not a raw byte stream. -/
def ProxyResult.isRawStream : ProxyResult → Bool
  | .rawStream _ _ => true
  | _ => false

/-- Model of `BaseProxyResponseBuilder.render_from_handler` (`base.py` lines
254–271): with the `raw` option the handler is `StreamHandler` (streams the
body verbatim with the response mimetype); otherwise the resolved
content-type handler runs, and if it raises `ProxyResponseSizeError` the
builder retries as a raw stream seeded with the partial bytes. -/
def render_from_handler (r : ScrollResponseModel) : ProxyResult :=
  if r.options.raw then .rawStream r.mimetype []
  else
    match r.handlerOutcome with
    | .rendered page => .handlerPage page
    | .tooLarge bytesRead => .rawStream r.mimetype bytesRead

/-- Model of `ScrollProxyResponseBuilder.build_proxy_response` (`scroll.py`
lines 189–243), branch for branch.  In the `crt` branch, `get_body()` is run
for its side effect; if the body reaches `MAX_BODY_SIZE` that call raises
`ProxyResponseSizeError`, which nothing in this method catches. -/
def build_proxy_response (r : ScrollResponseModel) : ProxyResult :=
  if r.options.raw_crt then .certAttachment r.tls_cert (r.host ++ ".cer")
  else if r.options.crt then
    (if r.body.length < MAX_BODY_SIZE then .tlsContextPage
     else .uncaughtSizeError (r.body.take MAX_BODY_SIZE))
  else if startsWithCh r.status '1' then .inputPrompt (r.status = "11") r.meta
  else if startsWithCh r.status '2' then render_from_handler r
  else if startsWithCh r.status '3' then .redirectTo r.meta 307
  else if startsWithCh r.status '4' || startsWithCh r.status '5' then
    .proxyErrorPage r.status r.meta
  else if startsWithCh r.status '6' then .certRequiredPage
  else .gatewayErrorPage

/-- Concrete response used in the C2 counterexample: `raw` is set but the
status class is "3" (redirect). -/
def rawRedirectDemo : ScrollResponseModel :=
  { options := { raw := true, raw_crt := false, crt := false, charset := "" }
    status := "30"
    meta := "/new/path"
    host := "example.com"
    body := []
    tls_cert := []
    handlerOutcome := .rendered "" }

/-- Concrete response used in the C2 witness: `raw` set, status class "2". -/
def rawSuccessDemo : ScrollResponseModel :=
  { options := { raw := true, raw_crt := false, crt := false, charset := "" }
    status := "20"
    meta := "text/scroll"
    host := "example.com"
    body := [104, 105]
    tls_cert := []
    handlerOutcome := .rendered "page" }

/-! ## Scroll date parsing (`ScrollRequest.parse_date`) -/

/-- Naive datetime as produced by `datetime.fromisoformat`; `tzOffset` is the
UTC offset in microseconds (`none` for a naive datetime, `some 0` for UTC). -/
structure PyDateTime where
  year : Nat
  month : Nat
  day : Nat
  hour : Nat
  minute : Nat
  second : Nat
  microsecond : Nat
  tzOffset : Option Int
deriving DecidableEq, Repr

/-- Gregorian leap year test, as in Python's `calendar.isleap`. -/
def isLeap (y : Nat) : Bool := (y % 4 = 0 && y % 100 ≠ 0) || y % 400 = 0

/-- Days in a month, used by the `datetime` constructor's validation. -/
def daysInMonth (y m : Nat) : Nat :=
  if m = 2 then (if isLeap y then 29 else 28)
  else if m = 4 || m = 6 || m = 9 || m = 11 then 30
  else 31

/-- Decimal value of an all-digit character list (`none` on empty input or
any non-digit; Python `int(...)` restricted to plain ASCII digit strings). -/
def decDigits (cs : List Char) : Option Nat :=
  match cs with
  | [] => none
  | _ =>
    cs.foldl (fun acc c =>
      match acc with
      | none => none
      | some n => if c.isDigit then some (n * 10 + (c.toNat - 48)) else none)
      (some 0)

/-- Date part of `datetime.fromisoformat`: exactly `YYYY-MM-DD`, validated by
the `datetime` constructor (month 1–12, day within the month, year ≥ 1). -/
def parseIsoDate (cs : List Char) : Option (Nat × Nat × Nat) :=
  match cs with
  | [y1, y2, y3, y4, s1, m1, m2, s2, d1, d2] =>
    if s1 = '-' && s2 = '-' then
      match decDigits [y1, y2, y3, y4], decDigits [m1, m2], decDigits [d1, d2] with
      | some y, some m, some d =>
        if 1 ≤ y && 1 ≤ m && m ≤ 12 && 1 ≤ d && d ≤ daysInMonth y m then
          some (y, m, d)
        else none
      | _, _, _ => none
    else none
  | _ => none

/-- Python `_parse_hh_mm_ss_ff`: `HH`, `HH:MM`, `HH:MM:SS`, optionally
followed by `.fff` or `.ffffff`; returns (hour, minute, second, microsecond). -/
def parseHMSF (cs : List Char) : Option (Nat × Nat × Nat × Nat) :=
  match cs with
  | [a1, a2] => do
    let h ← decDigits [a1, a2]
    pure (h, 0, 0, 0)
  | a1 :: a2 :: ':' :: rest => do
    let h ← decDigits [a1, a2]
    match rest with
    | [b1, b2] => do
      let m ← decDigits [b1, b2]
      pure (h, m, 0, 0)
    | b1 :: b2 :: ':' :: rest2 => do
      let m ← decDigits [b1, b2]
      match rest2 with
      | [e1, e2] => do
        let s ← decDigits [e1, e2]
        pure (h, m, s, 0)
      | e1 :: e2 :: '.' :: frac => do
        let s ← decDigits [e1, e2]
        if frac.length = 3 then do
          let f ← decDigits frac
          pure (h, m, s, f * 1000)
        else if frac.length = 6 then do
          let f ← decDigits frac
          pure (h, m, s, f)
        else none
      | _ => none
    | _ => none
  | _ => none

/-- Time-and-zone part of `fromisoformat` (`_parse_isoformat_time`): the zone
starts after the first `-`, else the first `+`; a zone string must have
length 5, 8 or 15 and parse like a time; offset = sign × (h:m:s.f). -/
def parseIsoTime (cs : List Char) : Option (Nat × Nat × Nat × Nat × Option Int) :=
  if cs.length < 2 then none
  else
    let tzPos : Nat :=
      match cs.findIdx? (· = '-') with
      | some i => i + 1
      | none =>
        match cs.findIdx? (· = '+') with
        | some i => i + 1
        | none => 0
    let timestr := if tzPos = 0 then cs else cs.take (tzPos - 1)
    match parseHMSF timestr with
    | none => none
    | some (h, m, s, f) =>
      if tzPos = 0 then some (h, m, s, f, none)
      else
        let tzs := cs.drop tzPos
        if tzs.length = 5 || tzs.length = 8 || tzs.length = 15 then
          match parseHMSF tzs with
          | none => none
          | some (th, tm, ts, tf) =>
            let mag : Int := ((th * 3600 + tm * 60 + ts) * 1000000 + tf : Nat)
            let off : Int := if cs.get? (tzPos - 1) = some '-' then -mag else mag
            some (h, m, s, f, some off)
        else none

/-- Model of `datetime.fromisoformat` for Python ≤ 3.10 (the version whose
missing `Z` support the source works around, per the comment referencing
cpython issue 80010): the date is chars 0–9, the separator char 10 is
skipped, the time starts at char 11; constructor validation on the ranges. -/
def fromisoformat (cs : List Char) : Option PyDateTime := do
  let (y, mo, d) ← parseIsoDate (cs.take 10)
  let tstr := cs.drop 11
  let (h, mi, s, f, tz) ←
    if tstr = [] then
      if cs.length = 10 then some (0, 0, 0, 0, none) else none
    else parseIsoTime tstr
  if h < 24 && mi < 60 && s < 60 &&
      (match tz with
       | some o => (-86400000000 < o && o < 86400000000 : Bool)
       | none => true) then
    pure ⟨y, mo, d, h, mi, s, f, tz⟩
  else none

/-- Python `.replace(tzinfo=timezone.utc)`. -/
def withUTC (d : PyDateTime) : PyDateTime := { d with tzOffset := some 0 }

/-- Model of `ScrollRequest.parse_date` (`scroll.py` lines 41–52) on the
decoded header line: empty (after rstrip) → `none`; else try
`fromisoformat`; on failure, if the string ends in `Z`, strip it and try
again, forcing UTC — and if that second call also fails, the `ValueError` it
raises is NOT caught (`Except.error`).  Any other failure returns `none`. -/
def parse_date (line : String) : Except Unit (Option PyDateTime) :=
  let ds := pyRstrip line.toList
  if ds = [] then .ok none
  else
    match fromisoformat ds with
    | some d => .ok (some d)
    | none =>
      if ds.getLast? = some 'Z' then
        match fromisoformat ds.dropLast with
        | some d => .ok (some (withUTC d))
        | none => .error ()
      else .ok none

/-! ## Inline markup (`ScrollHandler.parse_inline_markup`) -/

/-- HTML escaping of one character as in `markupsafe.escape`. -/
def escChar (c : Char) : List Char :=
  if c = '&' then "&amp;".toList
  else if c = '<' then "&lt;".toList
  else if c = '>' then "&gt;".toList
  else if c = Char.ofNat 34 then "&#34;".toList
  else if c = Char.ofNat 39 then "&#39;".toList
  else [c]

/-- Model of `markupsafe.escape` on a plain string. -/
def pyEscape (cs : List Char) : List Char := (cs.map escChar).flatten

/-- The backtick character. -/
def btick : Char := Char.ofNat 96

/-- Shape shared by the three inline patterns of `ScrollHandler`
(`scroll.py` handler lines 26–30): a delimiter, the character excluded from
the middle of the span content, and whether the pattern carries the
"(?<!d)…(?!d)" lookaround pair. -/
structure SpanPat where
  delim : Char
  noInner : Char
  lookaround : Bool

/-- Pattern for code spans. -/
def codePat : SpanPat := ⟨btick, btick, false⟩

/-- Pattern for bold spans. -/
def boldPat : SpanPat := ⟨'*', '*', true⟩

/-- Pattern for italic spans. -/
def italPat : SpanPat := ⟨'_', '_', true⟩

/-- Negative lookahead after the closing delimiter. -/
def lookOK (p : SpanPat) : List Char → Bool
  | [] => true
  | a :: _ => !(p.lookaround && a = p.delim)

/-- Can the span content end at index `L` of `u` (the text after the first
content character)?  Requires a non-whitespace content character at `L`, the
closing delimiter at `L + 1`, and the lookahead at `L + 2`. -/
def closeOK (p : SpanPat) (u : List Char) (L : Nat) : Bool :=
  match u[L]?, u[L + 1]? with
  | some cl, some d2 =>
    !pyIsSpace cl && d2 = p.delim &&
      (match u[L + 2]? with
       | some a => !(p.lookaround && a = p.delim)
       | none => true)
  | _, _ => false

/-- Backtracking of the greedy `[^x]*`: try content ends from `L` downwards;
returns the chosen end index and the text after the whole match. -/
def tryClose (p : SpanPat) (u : List Char) : Nat → Option (Nat × List Char)
  | 0 => if closeOK p u 0 then some (0, u.drop 2) else none
  | L + 1 => if closeOK p u (L + 1) then some (L + 1, u.drop (L + 3)) else tryClose p u L

/-- Attempt to match `d(\S(?:[^x]*\S)?)d` (with optional lookarounds) at the
head of the list, given whether the negative lookbehind fails here.  Returns
the captured content and the remaining text.  Preference order is exactly
the regex engine's: the optional group present with the longest `[^x]*`
first, then shorter, then the group absent. -/
def matchAt (p : SpanPat) (lbFail : Bool) : List Char → Option (List Char × List Char)
  | d :: c1 :: u =>
    if lbFail then none
    else if d = p.delim && !pyIsSpace c1 then
      match tryClose p u ((u.takeWhile (fun c => c ≠ p.noInner)).length) with
      | some (L, after) => some (c1 :: u.take (L + 1), after)
      | none =>
        match u with
        | d2 :: after2 =>
          if d2 = p.delim && lookOK p after2 then some ([c1], after2) else none
        | [] => none
    else none
  | _ => none

/-- Scan of `re.sub` for one span pattern: walk the text left to right,
replacing each match with `openT ++ content ++ closeT` and resuming after
it; `prev` is the original character before the scan position (for the
lookbehind).  `fuel` only bounds the recursion; it is set to the text length
and every step consumes at least one character. -/
def subSpan (p : SpanPat) (openT closeT : List Char) :
    Nat → Option Char → List Char → List Char
  | 0, _, s => s
  | _ + 1, _, [] => []
  | fuel + 1, prev, c :: rest =>
    if c = p.delim then
      match matchAt p (p.lookaround && prev == some p.delim) (c :: rest) with
      | some (content, after) =>
        openT ++ content ++ closeT ++ subSpan p openT closeT fuel (some p.delim) after
      | none => c :: subSpan p openT closeT fuel (some c) rest
    else c :: subSpan p openT closeT fuel (some c) rest

/-- Python `pattern.sub(open + \1 + close, s)` for one span pattern. -/
def reSub (p : SpanPat) (openT closeT : List Char) (cs : List Char) : List Char :=
  subSpan p openT closeT cs.length none cs

/-- Model of `ScrollHandler.parse_inline_markup` (handler lines 231–242):
escape the HTML first, then substitute code, bold and italic spans in that
order on the escaped text. -/
def parse_inline_markup (s : String) : String :=
  ⟨reSub italPat "<i>".toList "</i>".toList
    (reSub boldPat "<b>".toList "</b>".toList
      (reSub codePat "<code>".toList "</code>".toList
        (pyEscape s.toList)))⟩

/-! ## Hierarchical anchors (`ScrollHandler.get_anchor`) -/

/-- The three heading levels that carry anchors (`AnchorLevel` enum). -/
inductive AnchorLevel where
  | H2
  | H3
  | H4
deriving DecidableEq, Repr

/-- The three anchor counters (`self.anchor_counters`). -/
structure AnchorCounters where
  h2 : Nat
  h3 : Nat
  h4 : Nat
deriving DecidableEq, Repr

/-- `bump_h2_anchor`: increment H2, reset H3 and H4. -/
def bump_h2_anchor (c : AnchorCounters) : AnchorCounters := ⟨c.h2 + 1, 0, 0⟩

/-- `bump_h3_anchor`: cascade to H2 when it is still 0, then increment H3
and reset H4. -/
def bump_h3_anchor (c : AnchorCounters) : AnchorCounters :=
  let c' := if c.h2 = 0 then bump_h2_anchor c else c
  ⟨c'.h2, c'.h3 + 1, 0⟩

/-- `bump_h4_anchor`: cascade to H3 (with its own H2 cascade) when it is
still 0, then increment H4. -/
def bump_h4_anchor (c : AnchorCounters) : AnchorCounters :=
  let c' := if c.h3 = 0 then bump_h3_anchor c else c
  ⟨c'.h2, c'.h3, c'.h4 + 1⟩

/-- Model of `ScrollHandler.get_anchor` (handler lines 55–81): bump the
counters for the level and render the dotted anchor text from the updated
counters. -/
def get_anchor (c : AnchorCounters) : AnchorLevel → AnchorCounters × String
  | .H2 =>
    let c' := bump_h2_anchor c
    (c', Nat.repr c'.h2)
  | .H3 =>
    let c' := bump_h3_anchor c
    (c', Nat.repr c'.h2 ++ "." ++ Nat.repr c'.h3)
  | .H4 =>
    let c' := bump_h4_anchor c
    (c', Nat.repr c'.h2 ++ "." ++ Nat.repr c'.h3 ++ "." ++ Nat.repr c'.h4)

/-! ## The Scroll document transducer (`ScrollHandler.iter_content`) -/

/-- Modelled from the spec: the result of `parse_link_line(line[2:], url)`
combined with the URL methods used on it (`get_proxy_url`,
`get_external_indicator`); `geminiportal/utils.py` and `urls.py` are outside
`src/`, so the transducer is parameterized over this link parser.  `pfx` is
the link's display marker text (the Python `prefix` value, empty string when
the line supplies none) and `ext` the external-host indicator. -/
structure LinkData where
  url : String
  text : String
  pfx : String
  ext : Option String
deriving DecidableEq, Repr

/-- A citation attached to a blockquote (the dict built in the handler at
lines 124–129); field names follow the dict keys, with `pfx` for the Python
`prefix` key and `ext` for `external_indicator`. -/
structure Citation where
  url : String
  text : String
  pfx : String
  ext : Option String
deriving DecidableEq, Repr

/-- The citation dict: the display marker defaults to the em-dash lead-in
when the link line supplies none (`prefix or "— "`). -/
def mkCitation (l : LinkData) : Citation :=
  ⟨l.url, l.text, if l.pfx = "" then "— " else l.pfx, l.ext⟩

/-- One content block yielded by `iter_content`.  Flushed buffer blocks all
share the `{item_type, citation, lines}` dict shape and are modelled by the
`block` constructor; the others carry exactly their dict fields.  `h1` and
`h5` have no anchor field, matching the dicts yielded for them. -/
inductive ContentItem where
  | link (url : String) (text : String) (pfx : String) (ext : Option String)
  | prompt (url : String) (text : String) (pfx : String) (ext : Option String)
  | h1 (text : String)
  | h2 (text : String) (anchor : String)
  | h3 (text : String) (anchor : String)
  | h4 (text : String) (anchor : String)
  | h5 (text : String)
  | hr
  | block (item_type : String) (citation : Option Citation) (lines : List String)
deriving DecidableEq, Repr

/-- The mutable parser state of `ScrollHandler` during `iter_content`. -/
structure ScrollState where
  line_buffer : List String
  active_type : Option String
  anchors : AnchorCounters
  citation : Option Citation
deriving DecidableEq, Repr

/-- Model of `ScrollHandler.flush` (handler lines 213–229): no-op when the
requested type equals the active one; otherwise emit one block from a
non-empty buffer (inline markup applied for `p`/`ul`/`blockquote` buffers,
verbatim otherwise, the pending citation attached), then reset buffer and
citation and install the new active type. -/
def flush (st : ScrollState) (new_type : Option String) : List ContentItem × ScrollState :=
  if st.active_type = new_type then ([], st)
  else
    let out : List ContentItem :=
      match st.active_type with
      | none => []
      | some t =>
        if st.line_buffer = [] then []
        else
          [ContentItem.block t st.citation
            (if t = "p" ∨ t = "ul" ∨ t = "blockquote" then
              st.line_buffer.map parse_inline_markup
             else st.line_buffer)]
    (out, ⟨[], new_type, st.anchors, none⟩)

/-- Line-start markers of the transducer. -/
def fenceTok : List Char := [btick, btick, btick]

/-- Marker of a link line. -/
def linkTok : List Char := ['=', '>']

/-- Marker of an input-prompt line. -/
def promptTok : List Char := ['=', ':']

/-- Marker of a level-5 heading line. -/
def h5Tok : List Char := ['#', '#', '#', '#', '#']

/-- Marker of a level-4 heading line. -/
def h4Tok : List Char := ['#', '#', '#', '#']

/-- Marker of a level-3 heading line. -/
def h3Tok : List Char := ['#', '#', '#']

/-- Marker of a level-2 heading line. -/
def h2Tok : List Char := ['#', '#']

/-- Marker of a level-1 heading line. -/
def h1Tok : List Char := ['#']

/-- Marker of an unordered-list line. -/
def ulTok : List Char := ['*', ' ']

/-- Marker of a blockquote line. -/
def bqTok : List Char := ['>', ' ']

/-- Model of one iteration of the line loop in `ScrollHandler.iter_content`
(handler lines 108–209): rstrip the line, then take the first matching
branch in source order, producing the items yielded for this line and the
successor state. -/
def processLine (pl : String → LinkData) (st : ScrollState) (rawLine : String) :
    List ContentItem × ScrollState :=
  let cs := pyRstrip rawLine.toList
  if startsWithL fenceTok cs then
    if st.active_type = some "pre" then flush st none else flush st (some "pre")
  else if st.active_type = some "pre" then
    ([], { st with line_buffer := st.line_buffer ++ [⟨cs⟩] })
  else if startsWithL linkTok cs then
    let l := pl ⟨cs.drop 2⟩
    if st.active_type = some "blockquote" then
      flush { st with citation := some (mkCitation l) } none
    else
      let r := flush st none
      (r.1 ++ [.link l.url l.text l.pfx l.ext], r.2)
  else if startsWithL promptTok cs then
    let r := flush st none
    let l := pl ⟨cs.drop 2⟩
    (r.1 ++ [.prompt l.url l.text l.pfx l.ext], r.2)
  else if startsWithL h5Tok cs then
    let r := flush st none
    (r.1 ++ [.h5 ⟨pyLstrip (cs.drop 5)⟩], r.2)
  else if startsWithL h4Tok cs then
    let r := flush st none
    let a := get_anchor r.2.anchors .H4
    (r.1 ++ [.h4 ⟨pyLstrip (cs.drop 4)⟩ a.2], { r.2 with anchors := a.1 })
  else if startsWithL h3Tok cs then
    let r := flush st none
    let a := get_anchor r.2.anchors .H3
    (r.1 ++ [.h3 ⟨pyLstrip (cs.drop 3)⟩ a.2], { r.2 with anchors := a.1 })
  else if startsWithL h2Tok cs then
    let r := flush st none
    let a := get_anchor r.2.anchors .H2
    (r.1 ++ [.h2 ⟨pyLstrip (cs.drop 2)⟩ a.2], { r.2 with anchors := a.1 })
  else if startsWithL h1Tok cs then
    let r := flush st none
    (r.1 ++ [.h1 ⟨pyLstrip (cs.drop 1)⟩], r.2)
  else if startsWithL ulTok cs then
    let r := flush st (some "ul")
    (r.1, { r.2 with line_buffer := r.2.line_buffer ++ [⟨pyLstrip (cs.drop 1)⟩] })
  else if startsWithL bqTok cs || cs = ['>'] then
    let r := flush st (some "blockquote")
    (r.1, { r.2 with line_buffer := r.2.line_buffer ++ [⟨cs.drop 2⟩] })
  else if cs = ['-', '-', '-'] then
    let r := flush st none
    (r.1 ++ [.hr], r.2)
  else
    let r := flush st (some "p")
    (r.1, { r.2 with line_buffer := r.2.line_buffer ++ [⟨cs⟩] })

/-- The state installed at the top of `iter_content`: empty buffer, no
active block, all three anchor counters 0, no pending citation. -/
def initScrollState : ScrollState := ⟨[], none, ⟨0, 0, 0⟩, none⟩

/-- Model of `ScrollHandler.iter_content` (handler lines 98–211): split the
text into lines, run the per-line transducer from the initial state, then
perform the final flush. -/
def iter_content (pl : String → LinkData) (text : String) : List ContentItem :=
  let run := (pySplitlines text.toList).foldl
    (fun acc line =>
      let r := processLine pl acc.2 ⟨line⟩
      (acc.1 ++ r.1, r.2))
    (([], initScrollState) : List ContentItem × ScrollState)
  run.1 ++ (flush run.2 none).1

/-- Trivial link parser used for concrete documents with no link lines. -/
def noLink : String → LinkData := fun _ => ⟨"", "", "", none⟩



/-- Link parser stub used in the C6 witness: no custom display marker, so
the citation default applies. -/
def plDemo : String → LinkData := fun _ => ⟨"u", "t", "", none⟩

/-- Transducer state with an accumulating blockquote, for the C6 witness. -/
def bqStateDemo : ScrollState := ⟨["q"], some "blockquote", ⟨0, 0, 0⟩, none⟩

/-- Transducer state with an accumulating paragraph, for the C10 witness. -/
def pStateDemo : ScrollState := ⟨["x"], some "p", ⟨0, 0, 0⟩, none⟩


/-! ## Theorems: body reader -/

/-- Helper: chunks concatenate back to the streamed body. -/
theorem chunkBody_join (bs : List Nat) : (chunkBody bs).flatten = bs := by
  rw [chunkBody]
  by_cases h : bs = []
  · simp [h]
  · have ih := chunkBody_join (bs.drop CHUNK_SIZE)
    simp [h, ih]
termination_by bs.length
decreasing_by
  have hc : 0 < CHUNK_SIZE := by decide
  have hb : 0 < bs.length := List.length_pos.mpr h
  simp only [List.length_drop]
  omega

/-- Helper: every chunk is at most `CHUNK_SIZE` bytes. -/
theorem chunkBody_bound (bs : List Nat) :
    ∀ c ∈ chunkBody bs, c.length ≤ CHUNK_SIZE := by
  rw [chunkBody]
  by_cases h : bs = []
  · simp [h]
  · have ih := chunkBody_bound (bs.drop CHUNK_SIZE)
    simp only [h, dite_false]
    intro c hc
    rcases List.mem_cons.mp hc with h1 | h2
    · subst h1; exact List.length_take_le _ _
    · exact ih c h2
termination_by bs.length
decreasing_by
  have hc : 0 < CHUNK_SIZE := by decide
  have hb : 0 < bs.length := List.length_pos.mpr h
  simp only [List.length_drop]
  omega

/-- C1: `get_body` returns the full body (and closes the connection) when the
peer reaches EOF before `MAX_BODY_SIZE` bytes; when `MAX_BODY_SIZE` bytes are
available it raises the size error carrying exactly those bytes and leaves
the connection open. -/
theorem c1_get_body_bounded (bs : List Nat) :
    (bs.length < MAX_BODY_SIZE → get_body bs true = .body bs true) ∧
    (MAX_BODY_SIZE ≤ bs.length →
      get_body bs true = .tooLarge (bs.take MAX_BODY_SIZE) false ∧
      get_body bs false = .tooLarge (bs.take MAX_BODY_SIZE) false) := by
  constructor
  · intro h
    have h' : ¬ MAX_BODY_SIZE ≤ bs.length := by omega
    simp [get_body, readexactly, h']
  · intro h
    simp [get_body, readexactly, h]

/-- Witness for C1 at concrete inputs: a 3-byte body with EOF, and a body of
exactly `MAX_BODY_SIZE` bytes. -/
theorem c1_get_body_bounded_witness :
    get_body [1, 2, 3] true = .body [1, 2, 3] true ∧
    get_body (List.replicate MAX_BODY_SIZE 7) true =
      .tooLarge (List.replicate MAX_BODY_SIZE 7) false := by
  constructor
  · exact (c1_get_body_bounded [1, 2, 3]).1 (by decide)
  · have h := ((c1_get_body_bounded (List.replicate MAX_BODY_SIZE 7)).2 (by simp)).1
    simpa using h

/-- C9: `stream_body` closes the connection on every exit mode, yields only
chunks of at most `CHUNK_SIZE` bytes, and when iterated to exhaustion its
chunks concatenate to the whole body. -/
theorem c9_stream_chunks_close (bs : List Nat) (ex : StreamExit) :
    (stream_body bs ex).2 = true ∧
    (∀ c ∈ (stream_body bs ex).1, c.length ≤ CHUNK_SIZE) ∧
    (ex = .exhausted → (stream_body bs ex).1.flatten = bs) := by
  cases ex with
  | exhausted =>
    refine ⟨rfl, ?_, fun _ => chunkBody_join bs⟩
    intro c hc
    exact chunkBody_bound bs c hc
  | abandoned k =>
    refine ⟨rfl, ?_, by intro h; cases h⟩
    intro c hc
    exact chunkBody_bound bs c (List.mem_of_mem_take hc)
  | readError k =>
    refine ⟨rfl, ?_, by intro h; cases h⟩
    intro c hc
    exact chunkBody_bound bs c (List.mem_of_mem_take hc)

/-- Witness for C9 at a concrete input. -/
theorem c9_stream_chunks_close_witness :
    (stream_body [1, 2, 3] .exhausted).2 = true ∧
    (stream_body [1, 2, 3] .exhausted).1.flatten = [1, 2, 3] :=
  ⟨(c9_stream_chunks_close [1, 2, 3] .exhausted).1,
   (c9_stream_chunks_close [1, 2, 3] .exhausted).2.2 rfl⟩


/-! ## Theorems: proxy response builder, date parsing, meta parsing -/

/-- C2 counterexample: with the `raw` option set but a status of class "3",
the builder issues a redirect — it does not bypass the status dispatch and
does not stream raw bytes. -/
theorem c2_raw_redirect_counterexample :
    rawRedirectDemo.options.raw = true ∧
    build_proxy_response rawRedirectDemo = .redirectTo "/new/path" 307 ∧
    (build_proxy_response rawRedirectDemo).isRawStream = false := by decide

/-- C2 (amended): when the caller sets `raw` (and neither certificate mode)
and the status class is "2", the builder bypasses content-type handler
dispatch and streams the body verbatim with the protocol-reported mimetype. -/
theorem c2_raw_success_streams (r : ScrollResponseModel)
    (h1 : r.options.raw = true) (h2 : r.options.raw_crt = false)
    (h3 : r.options.crt = false) (h4 : startsWithCh r.status '2' = true) :
    build_proxy_response r = .rawStream r.mimetype [] := by
  have h1' : startsWithCh r.status '1' = false := by
    unfold startsWithCh at h4 ⊢
    simp only [String.toList] at h4 ⊢
    generalize r.status.data = l at h4 ⊢
    cases l with
    | nil => simp at h4
    | cons a t =>
      simp at h4 ⊢
      subst h4
      decide
  simp [build_proxy_response, h1, h2, h3, h4, h1', render_from_handler]

/-- Witness for C2 at a concrete raw success response. -/
theorem c2_raw_success_streams_witness :
    build_proxy_response rawSuccessDemo = .rawStream "text/scroll" [] := by
  rw [c2_raw_success_streams rawSuccessDemo rfl rfl rfl (by decide)]
  decide

/-- C3: evaluation of `parse_date`.  An unparsable string ending in `Z`
("bogusZ") makes the un-guarded second `fromisoformat` call raise an
uncaught `ValueError` (`Except.error`), contradicting the never-abort claim;
other failures return `none`, valid dates parse, and a valid date with a
trailing `Z` is parsed as UTC. -/
theorem c3_parse_date_eval :
    parse_date "bogusZ" = .error () ∧
    parse_date "not a date" = .ok none ∧
    parse_date "   " = .ok none ∧
    parse_date "2023-01-02T03:04:05Z" = .ok (some ⟨2023, 1, 2, 3, 4, 5, 0, some 0⟩) ∧
    parse_date "2023-01-02" = .ok (some ⟨2023, 1, 2, 0, 0, 0, 0, none⟩) :=
  ⟨rfl, rfl, rfl, rfl, rfl⟩

/-- Helper: a Python dict write is read back (last write wins). -/
theorem dictGet_dictSet (d : List (String × String)) (k v : String) :
    dictGet (dictSet d k v) k = some v := by
  induction d with
  | nil => simp [dictSet, dictGet]
  | cons p rest ih =>
    obtain ⟨k', v'⟩ := p
    by_cases h : k' = k
    · simp [dictSet, dictGet, h]
    · simp [dictSet, dictGet, h, ih]

/-- Helper: a segment with no `=` does not split. -/
theorem splitEq_eq_none (cs : List Char) (h : '=' ∉ cs) : splitEq cs = none := by
  induction cs with
  | nil => rfl
  | cons c rest ih =>
    rw [splitEq]
    have hc : ¬ c = '=' := fun he => h (he ▸ List.mem_cons_self c rest)
    have hr : splitEq rest = none := ih (fun hm => h (List.mem_cons_of_mem c hm))
    simp [hc, hr]

/-- C8 counterexample: a parameter key appearing in two segments takes the
value of the LAST segment — last-one-wins semantics are applied, contrary to
the claim. -/
theorem c8_last_wins_counterexample :
    dictGet (parse_meta "text/plain;charset=a;charset=b").2 "charset" = some "b" ∧
    dictGet (parse_meta "text/plain;charset=a;charset=b").2 "charset" ≠ some "a" := by
  decide

/-- C8 (amended): `parse_meta` splits on the first `;` into a stripped
mimetype and a parameter section, lowercases keys, silently drops segments
without `=` (total, never raises), parses the reference example, and a key
appearing in several segments takes the last segment's value. -/
theorem c8_parse_meta_amended :
    parse_meta "text/plain;charset=utf-8" = ("text/plain", [("charset", "utf-8")]) ∧
    (∀ meta : String, (parse_meta meta).1 = ⟨pyStrip (splitSemi meta.toList).1⟩) ∧
    (∀ d k v, dictGet (dictSet d k v) k = some v) ∧
    (∀ d seg, '=' ∉ pyStrip seg → paramStep d seg = d) ∧
    dictGet (parse_meta "text/plain;charset=a;charset=b").2 "charset" = some "b" := by
  refine ⟨by decide, fun meta => rfl, dictGet_dictSet, ?_, by decide⟩
  intro d seg h
  simp [paramStep, splitEq_eq_none _ h]

/-- Witness for C8 discharging the hypotheses at concrete inputs. -/
theorem c8_parse_meta_amended_witness :
    paramStep [("a", "b")] " junk ".toList = [("a", "b")] ∧
    dictGet (dictSet [("x", "1")] "x" "2") "x" = some "2" :=
  ⟨c8_parse_meta_amended.2.2.2.1 [("a", "b")] " junk ".toList (by decide),
   c8_parse_meta_amended.2.2.1 [("x", "1")] "x" "2"⟩

/-! ## Theorems: the Scroll document transducer -/

/-- Helper: a successful prefix test exposes the head character. -/
theorem startsWithL_cons (p : Char) (ps cs : List Char)
    (h : startsWithL (p :: ps) cs = true) :
    ∃ r, cs = p :: r ∧ startsWithL ps r = true := by
  cases cs with
  | nil => simp [startsWithL] at h
  | cons c t =>
    simp [startsWithL] at h
    exact ⟨t, by rw [h.1], h.2⟩

/-- C4 counterexample: on the reference document the second block is the
paragraph `["", "Hello <b>world</b>"]` — the blank separator line is
buffered into the paragraph — not `["Hello <b>world</b>"]` as claimed. -/
theorem c4_paragraph_counterexample :
    (iter_content noLink "# Title\n\nHello *world*")[1]? =
      some (.block "p" none ["", "Hello <b>world</b>"]) ∧
    (iter_content noLink "# Title\n\nHello *world*")[1]? ≠
      some (.block "p" none ["Hello <b>world</b>"]) := by
  decide

/-- C4 (amended): the Scroll body `"# Title\n\nHello *world*"` transduces to
a level-1 heading "Title" followed by one paragraph block whose lines are
`["", "Hello <b>world</b>"]` (the empty line is part of the paragraph
buffer; the bold span is converted). -/
theorem c4_end_to_end :
    iter_content noLink "# Title\n\nHello *world*" =
      [.h1 "Title", .block "p" none ["", "Hello <b>world</b>"]] := by
  decide

/-- C5: the anchor counters start at zero for a document parse, and the
bump functions implement outline numbering with auto-cascade: H2 increments
H2 and zeroes H3/H4; H3 first bumps H2 when it is still 0, then increments
H3 and zeroes H4; H4 first bumps H3 (with its own H2 cascade) when H3 is
still 0, then increments H4; `get_anchor` renders the dotted anchor from
the bumped counters.  The reference heading sequences produce anchors
1, 1.1, 1.2, 1.2.1, 2, and a leading H4 gets 1.1.1. -/
theorem c5_anchor_outline :
    (∀ c : AnchorCounters, bump_h2_anchor c = ⟨c.h2 + 1, 0, 0⟩) ∧
    (∀ c : AnchorCounters, c.h2 = 0 → bump_h3_anchor c = ⟨1, 1, 0⟩) ∧
    (∀ c : AnchorCounters, c.h2 ≠ 0 → bump_h3_anchor c = ⟨c.h2, c.h3 + 1, 0⟩) ∧
    (∀ c : AnchorCounters, c.h3 = 0 → c.h2 = 0 → bump_h4_anchor c = ⟨1, 1, 1⟩) ∧
    (∀ c : AnchorCounters, c.h3 = 0 → c.h2 ≠ 0 → bump_h4_anchor c = ⟨c.h2, 1, 1⟩) ∧
    (∀ c : AnchorCounters, c.h3 ≠ 0 → bump_h4_anchor c = ⟨c.h2, c.h3, c.h4 + 1⟩) ∧
    (∀ c : AnchorCounters,
      get_anchor c .H2 = (bump_h2_anchor c, Nat.repr (bump_h2_anchor c).h2) ∧
      get_anchor c .H3 =
        (bump_h3_anchor c,
         Nat.repr (bump_h3_anchor c).h2 ++ "." ++ Nat.repr (bump_h3_anchor c).h3) ∧
      get_anchor c .H4 =
        (bump_h4_anchor c,
         Nat.repr (bump_h4_anchor c).h2 ++ "." ++ Nat.repr (bump_h4_anchor c).h3 ++
           "." ++ Nat.repr (bump_h4_anchor c).h4)) ∧
    initScrollState.anchors = ⟨0, 0, 0⟩ ∧
    iter_content noLink "## A\n### B\n### C\n#### D\n## E" =
      [.h2 "A" "1", .h3 "B" "1.1", .h3 "C" "1.2", .h4 "D" "1.2.1", .h2 "E" "2"] ∧
    iter_content noLink "#### X" = [.h4 "X" "1.1.1"] := by
  refine ⟨fun c => rfl, ?_, ?_, ?_, ?_, ?_, fun c => ⟨rfl, rfl, rfl⟩, rfl,
    by decide, by decide⟩
  · intro c h
    simp [bump_h3_anchor, bump_h2_anchor, h]
  · intro c h
    simp [bump_h3_anchor, h]
  · intro c h3 h2
    simp [bump_h4_anchor, bump_h3_anchor, bump_h2_anchor, h3, h2]
  · intro c h3 h2
    simp [bump_h4_anchor, bump_h3_anchor, h3, h2]
  · intro c h3
    simp [bump_h4_anchor, h3]

/-- Witness for C5 discharging the cascade hypotheses at concrete counters. -/
theorem c5_anchor_outline_witness :
    bump_h3_anchor ⟨0, 5, 7⟩ = ⟨1, 1, 0⟩ ∧
    bump_h4_anchor ⟨2, 0, 3⟩ = ⟨2, 1, 1⟩ ∧
    bump_h4_anchor ⟨2, 3, 4⟩ = ⟨2, 3, 5⟩ :=
  ⟨c5_anchor_outline.2.1 ⟨0, 5, 7⟩ rfl,
   c5_anchor_outline.2.2.2.2.1 ⟨2, 0, 3⟩ rfl (by decide),
   c5_anchor_outline.2.2.2.2.2.1 ⟨2, 3, 4⟩ (by decide)⟩

/-- C6: a link line seen while a blockquote is accumulating does not emit a
link block; it attaches the parsed link to the quote as its citation (the
display marker defaulting to the em-dash lead-in when the line supplies
none), and the blockquote block emitted by the flush carries that citation. -/
theorem c6_blockquote_citation (pl : String → LinkData) (st : ScrollState) (line : String)
    (hb : st.active_type = some "blockquote") (hne : st.line_buffer ≠ [])
    (hl : startsWithL linkTok (pyRstrip line.toList) = true) :
    processLine pl st line =
      ([ContentItem.block "blockquote"
          (some (mkCitation (pl ⟨(pyRstrip line.toList).drop 2⟩)))
          (st.line_buffer.map parse_inline_markup)],
       ⟨[], none, st.anchors, none⟩) := by
  simp only [processLine]
  generalize hg : pyRstrip line.toList = cs at hl ⊢
  obtain ⟨r1, rfl, hl1⟩ := startsWithL_cons _ _ _ (by simpa [linkTok] using hl)
  clear hl
  obtain ⟨r2, rfl, -⟩ := startsWithL_cons _ _ _ hl1
  have hf : startsWithL fenceTok ('=' :: '>' :: r2) = false := by
    have e : (btick == '=') = false := by decide
    simp [startsWithL, fenceTok, e]
  have hlk : startsWithL linkTok ('=' :: '>' :: r2) = true := by
    simp [startsWithL, linkTok]
  have hbp : ("blockquote" : String) ≠ "pre" := by decide
  simp [hf, hlk, hb, hbp, hne, flush]

/-- Witness for C6: a quote of one line followed by `"=> cite"`. -/
theorem c6_blockquote_citation_witness :
    processLine plDemo bqStateDemo "=> cite" =
      ([.block "blockquote" (some ⟨"u", "t", "— ", none⟩) ["q"]],
       ⟨[], none, ⟨0, 0, 0⟩, none⟩) := by
  rw [c6_blockquote_citation plDemo bqStateDemo "=> cite" rfl (by decide) (by decide)]
  decide

/-- C7: evaluation of `parse_inline_markup`.  The double-delimiter forms ARE
converted — `**not bold**` becomes `<b>*not bold*</b>` (the one-sided
lookarounds do not stop the span from covering both asterisk pairs), and
`__it__` becomes `<i>_it_</i>` — while the single-delimiter forms and code
spans convert as documented and HTML is escaped before substitution. -/
theorem c7_inline_markup_eval :
    parse_inline_markup "**not bold**" = "<b>*not bold*</b>" ∧
    parse_inline_markup "__it__" = "<i>_it_</i>" ∧
    parse_inline_markup "*bold*" = "<b>bold</b>" ∧
    parse_inline_markup "_it_" = "<i>it</i>" ∧
    parse_inline_markup "`code` <" = "<code>code</code> &lt;" := by
  decide

/-- C10 counterexample: a `#####` line inside a code fence is buffered
verbatim into the `pre` block; no level-5 heading is emitted for it. -/
theorem c10_pre_counterexample :
    iter_content noLink "```\n##### x" = [.block "pre" none ["##### x"]] := by
  decide

/-- C10 (amended): a line starting with five `#` characters, seen while the
active block is not `pre`, flushes the active block and emits one level-5
heading whose text is the (rstripped) line minus its first five characters,
left-stripped — further `#` characters stay in the text — and the `h5`
constructor carries no anchor. -/
theorem c10_h5_heading (pl : String → LinkData) (st : ScrollState) (line : String)
    (hpre : st.active_type ≠ some "pre")
    (h5 : startsWithL h5Tok (pyRstrip line.toList) = true) :
    processLine pl st line =
      ((flush st none).1 ++ [.h5 ⟨pyLstrip ((pyRstrip line.toList).drop 5)⟩],
       (flush st none).2) := by
  simp only [processLine]
  generalize hg : pyRstrip line.toList = cs at h5 ⊢
  obtain ⟨r1, rfl, h5a⟩ := startsWithL_cons _ _ _ (by simpa [h5Tok] using h5)
  clear h5
  obtain ⟨r2, rfl, h5b⟩ := startsWithL_cons _ _ _ h5a
  clear h5a
  obtain ⟨r3, rfl, h5c⟩ := startsWithL_cons _ _ _ h5b
  clear h5b
  obtain ⟨r4, rfl, h5d⟩ := startsWithL_cons _ _ _ h5c
  clear h5c
  obtain ⟨r5, rfl, -⟩ := startsWithL_cons _ _ _ h5d
  have hf : startsWithL fenceTok ('#' :: '#' :: '#' :: '#' :: '#' :: r5) = false := by
    have e : (btick == '#') = false := by decide
    simp [startsWithL, fenceTok, e]
  have he : (('=' : Char) == '#') = false := by decide
  have hlk : startsWithL linkTok ('#' :: '#' :: '#' :: '#' :: '#' :: r5) = false := by
    simp [startsWithL, linkTok, he]
  have hpk : startsWithL promptTok ('#' :: '#' :: '#' :: '#' :: '#' :: r5) = false := by
    simp [startsWithL, promptTok, he]
  have h5t : startsWithL h5Tok ('#' :: '#' :: '#' :: '#' :: '#' :: r5) = true := by
    simp [startsWithL, h5Tok]
  simp [hf, hpre, hlk, hpk, h5t]

/-- Witness for C10: a `#######` line while a paragraph is accumulating. -/
theorem c10_h5_heading_witness :
    processLine noLink pStateDemo "#######  y" =
      ([.block "p" none ["x"], .h5 "##  y"], ⟨[], none, ⟨0, 0, 0⟩, none⟩) := by
  rw [c10_h5_heading noLink pStateDemo "#######  y" (by decide) (by decide)]
  decide
